import Mathlib

/-!
Shallow embedding of the credential-resolution and token-validation logic of
the devin-cli repository: the functions `save_token`, `load_token`,
`get_api_key`, `test_token` and the `auth --remove` branch of `cmd_auth` from
`devin_cli_enhanced.py`, the `test_token` function from `devin_cli.py`, and
`get_api_key` from `devin_cli_standalone.py`.

The filesystem state relevant to these functions is the single secret-store
file `~/.devin-cli/token`, modelled as an optional record of its contents,
its permission bits, and whether opening/reading it raises (permission
denied, corruption).  The environment is modelled as the optional value of
the `DEVIN_API_KEY` variable (`none` = unset; `some ""` = set to the empty
string, which Python treats as falsy).
-/

/-- Model of Python `str.strip()` with no argument: remove leading and
trailing whitespace characters.  (Python also strips `\x0b`/`\x0c` and some
Unicode spaces; `Char.isWhitespace` covers space, tab, CR and LF, which is
the fragment exercised here.) -/
def strip (s : String) : String :=
  ⟨((s.data.dropWhile Char.isWhitespace).reverse.dropWhile Char.isWhitespace).reverse⟩

/-- The on-disk secret-store file: its textual contents, its POSIX permission
bits, and a flag recording that opening or reading it raises an exception
(for example permission denied). -/
structure TokenFile where
  contents : String
  mode : Nat
  readFails : Bool
deriving DecidableEq, Repr

/-- The secret store: `none` when `~/.devin-cli/token` does not exist. -/
abbrev SecretStore := Option TokenFile

/-- The environment has no `DEVIN_API_KEY` token: the variable is unset, or
set to the empty string (both falsy in Python). -/
abbrev envMissing (env : Option String) : Prop := env = none ∨ env = some ""

namespace Enhanced

/-- Warning printed by `load_token` in `devin_cli_enhanced.py` when the token
file exists but reading it raises (emoji prefix and exception text omitted). -/
def warningMsg : String := "Warning: Could not read saved token"

/-- The file-reading fallback of `load_token` (`devin_cli_enhanced.py`,
lines 56-63): if the token file exists, try to read it and return its
stripped contents; on a read failure print a warning; otherwise return
`None`.  Result: the returned value paired with the warnings printed. -/
def load_from_file : SecretStore → Option String × List String
  | none => (none, [])
  | some f => if f.readFails then (none, [warningMsg]) else (some (strip f.contents), [])

/-- `load_token` (`devin_cli_enhanced.py`, lines 49-65): return the stripped
environment token when `DEVIN_API_KEY` is set and non-empty (Python
truthiness), else fall back to the saved token file. -/
def load_token (env : Option String) (fs : SecretStore) : Option String × List String :=
  match env with
  | some t => if t = "" then load_from_file fs else (some (strip t), [])
  | none => load_from_file fs

/-- Outcome of `get_api_key`: either a key, or `sys.exit(code)` after
printing the given messages. -/
inductive GetKeyResult where
  | ok (key : String)
  | exit (code : Nat) (msgs : List String)
deriving DecidableEq, Repr

/-- The remediation messages printed by `get_api_key` in
`devin_cli_enhanced.py` when no token is found (emoji and blank lines
omitted). -/
def noTokenMsgs : List String :=
  ["Error: No Devin API token found.",
   "To set up authentication, run:",
   "  devin-cli auth",
   "Or set the environment variable:",
   "  export DEVIN_API_KEY=your_token_here"]

/-- `get_api_key` (`devin_cli_enhanced.py`, lines 68-78): `load_token`, then
`if not api_key` (catches both `None` and the empty string) print the
remediation messages and `sys.exit(1)`. -/
def get_api_key (env : Option String) (fs : SecretStore) : GetKeyResult :=
  match (load_token env fs).fst with
  | none => .exit 1 noTokenMsgs
  | some k => if k = "" then .exit 1 noTokenMsgs else .ok k

/-- Default permission bits of a file newly created by `open(path, 'w')`
under the usual umask (0o644). -/
def defaultCreateMode : Nat := 0o644

/-- Primitive filesystem operations performed by `save_token`, at the
granularity at which process interruption can observe them: the truncating
`open(token_file, 'w')`, the write of each character, and the final
`os.chmod`. -/
inductive FsOp where
  | openTruncate
  | appendChar (c : Char)
  | chmod (m : Nat)
deriving DecidableEq, Repr

/-- Effect of one primitive filesystem operation on the secret store.
`open(_, 'w')` truncates the existing file in place (keeping its mode) or
creates it with the default mode; a write appends to the current contents;
`chmod` sets the permission bits. -/
def applyOp (fs : SecretStore) : FsOp → SecretStore
  | .openTruncate =>
      match fs with
      | none => some ⟨"", defaultCreateMode, false⟩
      | some f => some ⟨"", f.mode, false⟩
  | .appendChar c =>
      match fs with
      | none => none
      | some f => some ⟨f.contents.push c, f.mode, f.readFails⟩
  | .chmod m =>
      match fs with
      | none => none
      | some f => some ⟨f.contents, m, f.readFails⟩

/-- Run a sequence of primitive filesystem operations on the store. -/
def run_ops (ops : List FsOp) (fs : SecretStore) : SecretStore :=
  ops.foldl applyOp fs

/-- The operation sequence of `save_token` (`devin_cli_enhanced.py`, lines
36-46): `open(token_file, 'w')` (truncating the target in place — there is
no temporary file), `f.write(token.strip())`, then
`os.chmod(token_file, 0o600)`. -/
def save_ops (token : String) : List FsOp :=
  FsOp.openTruncate :: (strip token).data.map FsOp.appendChar ++ [FsOp.chmod 0o600]

/-- `save_token` run to completion. -/
def save_token (token : String) (fs : SecretStore) : SecretStore :=
  run_ops (save_ops token) fs

/-- The `--remove` branch of `cmd_auth` (`devin_cli_enhanced.py`, lines
208-216): unlink the token file if it exists and report removal, otherwise
report that there was nothing to remove (emoji prefixes omitted).  Result:
the store afterwards, paired with the message printed. -/
def cmd_auth_remove (fs : SecretStore) : SecretStore × String :=
  match fs with
  | some _ => (none, "Saved token removed")
  | none => (none, "No saved token to remove")

/-- Outcome of the probe request issued through `urllib.request.urlopen`:
urllib raises `HTTPError` for error statuses and returns a response object
on success; any other exception (`URLError`, timeout, DNS failure,
connection refused) is a network-level failure. -/
inductive UrlOpenOutcome where
  | success (status : Nat)
  | httpError (code : Nat)
  | otherError
deriving DecidableEq, Repr

/-- How `urllib.request.urlopen` surfaces an HTTP response status: statuses
of 400 and above raise `HTTPError` carrying the code; lower statuses return
normally. -/
def outcomeOfStatus (s : Nat) : UrlOpenOutcome :=
  if 400 ≤ s then .httpError s else .success s

/-- `test_token` (`devin_cli_enhanced.py`, lines 111-133): `True` when
`urlopen` succeeds; on `HTTPError`, `False` exactly when `e.code == 403`
(every other code, 401 included, returns `True`); `True` on any other
exception. -/
def test_token : UrlOpenOutcome → Bool
  | .success _ => true
  | .httpError c => if c = 403 then false else true
  | .otherError => true

end Enhanced

namespace DevinCli

/-- Outcome of the probe request issued through `requests.post`
(`devin_cli.py`): requests returns a response object for every HTTP status
and raises only on network-level failures. -/
inductive ProbeOutcome where
  | response (status : Nat)
  | exception
deriving DecidableEq, Repr

/-- `test_token` (`devin_cli.py`, lines 79-101): `False` when
`response.status_code in [401, 403]`, `True` for any other status, and
`True` when the request raises (network errors). -/
def test_token : ProbeOutcome → Bool
  | .response s => if s = 401 ∨ s = 403 then false else true
  | .exception => true

end DevinCli

namespace Standalone

/-- The error messages printed by `get_api_key` in
`devin_cli_standalone.py` when `DEVIN_API_KEY` is missing (emoji omitted). -/
def errMsgs : List String :=
  ["Error: DEVIN_API_KEY environment variable is required.",
   "Set it with: export DEVIN_API_KEY=your_token_here"]

/-- `get_api_key` (`devin_cli_standalone.py`, lines 22-29): read
`DEVIN_API_KEY`; `if not api_key` print the error and `sys.exit(1)`,
otherwise return the value unmodified.  The source body never touches the
filesystem; the secret store is passed here as an explicit (ignored)
argument precisely so that independence from it is expressible. -/
def get_api_key (env : Option String) (_fs : SecretStore) : Enhanced.GetKeyResult :=
  match env with
  | none => .exit 1 errMsgs
  | some k => if k = "" then .exit 1 errMsgs else .ok k

end Standalone

/-! Helper lemmas about `strip` and the `save_token` operation sequence. -/

theorem mk_data (s : String) : (⟨s.data⟩ : String) = s := by
  cases s
  rfl

theorem dropWhile_idem (p : Char → Bool) (l : List Char) :
    (l.dropWhile p).dropWhile p = l.dropWhile p := by
  induction l with
  | nil => rfl
  | cons a t ih =>
      by_cases h : p a <;> simp [List.dropWhile_cons, h, ih]

theorem head_dropWhile_not (p : Char → Bool) (l : List Char) (c : Char)
    (h : (l.dropWhile p).head? = some c) : p c = false := by
  induction l with
  | nil => simp [List.dropWhile] at h
  | cons a t ih =>
      by_cases ha : p a
      · rw [List.dropWhile_cons] at h
        simp [ha] at h
        exact ih h
      · rw [List.dropWhile_cons] at h
        simp [ha] at h
        rw [← h]
        simpa using ha

theorem dropWhile_eq_self_of_head (p : Char → Bool) (l : List Char)
    (h : ∀ c, l.head? = some c → p c = false) : l.dropWhile p = l := by
  cases l with
  | nil => rfl
  | cons a t =>
      have := h a rfl
      simp [List.dropWhile_cons, this]

theorem head_strip_not (p : Char → Bool) (l : List Char) (c : Char)
    (h : (((l.dropWhile p).reverse.dropWhile p).reverse).head? = some c) : p c = false := by
  rw [List.head?_reverse] at h
  obtain ⟨pre, hpre⟩ := List.dropWhile_suffix (l := (l.dropWhile p).reverse) p
  cases hempty : (l.dropWhile p).reverse.dropWhile p with
  | nil => rw [hempty] at h; simp at h
  | cons b t =>
      have hlast : (l.dropWhile p).reverse.getLast? = some c := by
        rw [← hpre, List.getLast?_append, h]
        rfl
      rw [List.getLast?_reverse] at hlast
      exact head_dropWhile_not p l c hlast

theorem strip_idem (s : String) : strip (strip s) = strip s := by
  have key : ∀ l : List Char,
      ((((((l.dropWhile Char.isWhitespace).reverse.dropWhile
            Char.isWhitespace).reverse).dropWhile Char.isWhitespace).reverse).dropWhile
        Char.isWhitespace).reverse
        = ((l.dropWhile Char.isWhitespace).reverse.dropWhile Char.isWhitespace).reverse := by
    intro l
    rw [dropWhile_eq_self_of_head _ _ (fun c hc => head_strip_not _ l c hc)]
    rw [List.reverse_reverse, dropWhile_idem]
  exact congrArg String.mk (key s.data)

theorem run_ops_appendChars (cs : List Char) (c0 : String) (m : Nat) (r : Bool) :
    Enhanced.run_ops (cs.map Enhanced.FsOp.appendChar) (some ⟨c0, m, r⟩)
      = some ⟨⟨c0.data ++ cs⟩, m, r⟩ := by
  induction cs generalizing c0 with
  | nil =>
      simp [Enhanced.run_ops, mk_data]
  | cons c t ih =>
      rw [List.map_cons]
      show Enhanced.run_ops (t.map Enhanced.FsOp.appendChar)
        (Enhanced.applyOp (some ⟨c0, m, r⟩) (Enhanced.FsOp.appendChar c)) = _
      rw [show Enhanced.applyOp (some ⟨c0, m, r⟩) (Enhanced.FsOp.appendChar c)
            = some ⟨c0.push c, m, r⟩ from rfl]
      rw [ih (c0.push c)]
      congr 1
      cases c0
      simp [String.push]

theorem save_token_result (t : String) (fs : SecretStore) :
    Enhanced.save_token t fs = some ⟨strip t, 0o600, false⟩ := by
  have step : ∀ m0 : Nat,
      Enhanced.run_ops
          ((strip t).data.map Enhanced.FsOp.appendChar ++ [Enhanced.FsOp.chmod 0o600])
          (some ⟨"", m0, false⟩)
        = some ⟨strip t, 0o600, false⟩ := by
    intro m0
    show List.foldl Enhanced.applyOp (some ⟨"", m0, false⟩) _ = _
    rw [List.foldl_append]
    rw [show List.foldl Enhanced.applyOp (some ⟨"", m0, false⟩)
          ((strip t).data.map Enhanced.FsOp.appendChar)
          = some ⟨⟨("" : String).data ++ (strip t).data⟩, m0, false⟩
        from run_ops_appendChars (strip t).data "" m0 false]
    rw [show (("" : String).data ++ (strip t).data) = (strip t).data from rfl]
    rw [mk_data]
    rfl
  cases fs with
  | none => exact step Enhanced.defaultCreateMode
  | some f =>
      show Enhanced.run_ops _ (Enhanced.applyOp (some f) Enhanced.FsOp.openTruncate) = _
      rw [show Enhanced.applyOp (some f) Enhanced.FsOp.openTruncate
            = some ⟨"", f.mode, false⟩ from rfl]
      exact step f.mode

/-! Claim theorems. -/

/-- C1 counterexample: in `devin_cli_enhanced.py`, a probe answered with HTTP
status 401 surfaces as `HTTPError 401` and `test_token` returns `True`
(Valid), contradicting the claim that a 401 status yields Invalid (False). -/
theorem C1_counterexample :
    Enhanced.outcomeOfStatus 401 = Enhanced.UrlOpenOutcome.httpError 401 ∧
    Enhanced.test_token (Enhanced.UrlOpenOutcome.httpError 401) = true := by
  decide

/-- C1 (amended): in `devin_cli.py`, `test_token` returns Invalid (`false`)
exactly for response statuses 401 and 403 and Valid (`true`) for every other
status and for network-level failures; in `devin_cli_enhanced.py`,
`test_token` returns Invalid only for HTTP status 403 — a 401 response yields
Valid — and Valid for every other status and for network-level failures. -/
theorem C1_token_validation (s : Nat) :
    (DevinCli.test_token (DevinCli.ProbeOutcome.response s) = false ↔ s = 401 ∨ s = 403) ∧
    DevinCli.test_token DevinCli.ProbeOutcome.exception = true ∧
    (Enhanced.test_token (Enhanced.outcomeOfStatus s) = false ↔ s = 403) ∧
    Enhanced.test_token Enhanced.UrlOpenOutcome.otherError = true := by
  refine ⟨?_, rfl, ?_, rfl⟩
  · by_cases h : s = 401 ∨ s = 403 <;> simp [DevinCli.test_token, h]
  · unfold Enhanced.outcomeOfStatus
    by_cases h4 : 400 ≤ s
    · by_cases h3 : s = 403 <;> simp [Enhanced.test_token, h4, h3]
    · simp [Enhanced.test_token, h4]
      omega

/-- C2 counterexample: with `DEVIN_API_KEY` set to the non-empty value
`" env-token "` and a stored token present, `load_token` returns the
stripped value `"env-token"`, which is not the environment token itself. -/
theorem C2_counterexample :
    (Enhanced.load_token (some " env-token ") (some ⟨"file-token", 0o600, false⟩)).fst
      = some "env-token" ∧
    (some "env-token" : Option String) ≠ some " env-token " := by
  decide

/-- C2 (amended): whenever the environment token is present and non-empty,
`load_token` returns the environment token stripped of surrounding
whitespace (equal to the environment token itself when it carries none),
for every secret-store state — the stored token is never consulted. -/
theorem C2_env_precedence (t : String) (fs : SecretStore) (h : t ≠ "") :
    (Enhanced.load_token (some t) fs).fst = some (strip t) := by
  simp [Enhanced.load_token, h]

/-- C2 witness: the amended theorem applied to the environment value
`" env-token "` over a populated secret store. -/
theorem C2_witness :
    (" env-token " : String) ≠ "" ∧
    (Enhanced.load_token (some " env-token ") (some ⟨"file-token", 0o600, false⟩)).fst
      = some (strip " env-token ") :=
  ⟨by decide, C2_env_precedence " env-token " (some ⟨"file-token", 0o600, false⟩) (by decide)⟩

/-- C3 counterexample: after `save_token " abc123xyz999 "`, `load_token`
with the environment cleared returns the stripped value `"abc123xyz999"`,
not exactly the saved token `" abc123xyz999 "`. -/
theorem C3_counterexample :
    (Enhanced.load_token none (Enhanced.save_token " abc123xyz999 " none)).fst
      = some "abc123xyz999" ∧
    (some "abc123xyz999" : Option String) ≠ some " abc123xyz999 " := by
  decide

/-- C3 (amended): for every token `T` and every prior store state,
`save_token T` leaves the store holding exactly the stripped token with
owner-only permission bits 0o600, and a subsequent `load_token` with the
environment cleared returns exactly `strip T` (equal to `T` precisely when
`T` carries no leading or trailing whitespace). -/
theorem C3_round_trip (t : String) (fs : SecretStore) :
    Enhanced.save_token t fs = some ⟨strip t, 0o600, false⟩ ∧
    (Enhanced.load_token none (Enhanced.save_token t fs)).fst = some (strip t) := by
  refine ⟨save_token_result t fs, ?_⟩
  rw [save_token_result]
  show (Enhanced.load_from_file (some ⟨strip t, 0o600, false⟩)).fst = some (strip t)
  simp [Enhanced.load_from_file, strip_idem]

/-- C4: with no environment token (unset or empty) and no secret-store file,
`load_token` returns `None`, and `get_api_key` prints the remediation
messages (how to supply a token) and exits with the nonzero code 1. -/
theorem C4_missing_credentials (env : Option String) (h : envMissing env) :
    (Enhanced.load_token env none).fst = none ∧
    Enhanced.get_api_key env none = .exit 1 Enhanced.noTokenMsgs ∧
    (1 : Nat) ≠ 0 := by
  rcases h with h | h <;> subst h <;> exact ⟨rfl, rfl, one_ne_zero⟩

/-- C4 witness: the unset environment with an absent store. -/
theorem C4_witness :
    envMissing none ∧
    ((Enhanced.load_token none none).fst = none ∧
     Enhanced.get_api_key none none = .exit 1 Enhanced.noTokenMsgs ∧
     (1 : Nat) ≠ 0) :=
  ⟨Or.inl rfl, C4_missing_credentials none (Or.inl rfl)⟩

/-- C5: with no environment token and a secret-store file that exists but
whose open/read raises, `load_token` returns normally with `None` and the
warning message — the failure is not propagated as an exception. -/
theorem C5_unreadable_store (env : Option String) (c : String) (m : Nat)
    (h : envMissing env) :
    Enhanced.load_token env (some ⟨c, m, true⟩) = (none, [Enhanced.warningMsg]) := by
  rcases h with h | h <;> subst h <;> rfl

/-- C5 witness: an unreadable stored token under a cleared environment. -/
theorem C5_witness :
    envMissing none ∧
    Enhanced.load_token none (some ⟨"secret-token", 0, true⟩)
      = (none, [Enhanced.warningMsg]) :=
  ⟨Or.inl rfl, C5_unreadable_store none "secret-token" 0 (Or.inl rfl)⟩

/-- C6: the `auth --remove` action deletes the secret-store file when it
exists (reporting removal) and is a reported no-op when it is absent; after
`save_token T` it leaves the store empty, so `load_token` with the
environment cleared returns `None`. -/
theorem C6_remove (t : String) (f : TokenFile) (fs : SecretStore) :
    Enhanced.cmd_auth_remove (some f) = (none, "Saved token removed") ∧
    Enhanced.cmd_auth_remove none = (none, "No saved token to remove") ∧
    (Enhanced.cmd_auth_remove (Enhanced.save_token t fs)).fst = none ∧
    (Enhanced.load_token none (Enhanced.cmd_auth_remove (Enhanced.save_token t fs)).fst).fst
      = none := by
  refine ⟨rfl, rfl, ?_, ?_⟩ <;> rw [save_token_result] <;> rfl

/-- C7: with no environment token and an existing readable secret-store
file, `load_token` returns the file's contents stripped of leading and
trailing whitespace, with no warning. -/
theorem C7_file_fallback (env : Option String) (c : String) (m : Nat)
    (h : envMissing env) (_hc : c ≠ "") :
    Enhanced.load_token env (some ⟨c, m, false⟩) = (some (strip c), []) := by
  rcases h with h | h <;> subst h <;> rfl

/-- C7 witness: a readable non-empty stored token under a cleared
environment resolves to its stripped contents. -/
theorem C7_witness :
    envMissing none ∧ ("  tok123  " : String) ≠ "" ∧
    Enhanced.load_token none (some ⟨"  tok123  ", 0o600, false⟩)
      = (some (strip "  tok123  "), []) :=
  ⟨Or.inl rfl, by decide, C7_file_fallback none "  tok123  " 0o600 (Or.inl rfl) (by decide)⟩

/-- C8: `save_token` truncates the target in place and writes directly, so
interrupting the process part-way through the operation sequence leaves the
secret-store file holding `"new"` — a half-written value that is neither the
previously stored token nor the token being saved.  This contradicts the
claim that a save can never leave a partially written file. -/
theorem C8_partial_write :
    4 < (Enhanced.save_ops "newtoken456").length ∧
    Enhanced.run_ops ((Enhanced.save_ops "newtoken456").take 4)
        (some ⟨"oldtoken123", 0o600, false⟩)
      = some ⟨"new", 0o600, false⟩ ∧
    ("new" : String) ≠ "oldtoken123" ∧ ("new" : String) ≠ "newtoken456" := by
  decide

/-- C9: the standalone `get_api_key` consults only `DEVIN_API_KEY`: whenever
that variable is unset or empty it prints the error and exits with code 1,
and its result never depends on the secret store — even one holding a valid
token. -/
theorem C9_standalone_env_only (env : Option String) (fs : SecretStore)
    (h : envMissing env) :
    Standalone.get_api_key env fs = .exit 1 Standalone.errMsgs ∧
    ∀ fs2 : SecretStore, Standalone.get_api_key env fs2 = Standalone.get_api_key env fs := by
  rcases h with h | h <;> subst h <;> exact ⟨rfl, fun _ => rfl⟩

/-- C9 witness: an unset environment over a readable non-empty token file. -/
theorem C9_witness :
    envMissing none ∧
    (Standalone.get_api_key none (some ⟨"validtoken123", 0o600, false⟩)
        = .exit 1 Standalone.errMsgs ∧
     ∀ fs2 : SecretStore, Standalone.get_api_key none fs2
        = Standalone.get_api_key none (some ⟨"validtoken123", 0o600, false⟩)) :=
  ⟨Or.inl rfl, C9_standalone_env_only none (some ⟨"validtoken123", 0o600, false⟩) (Or.inl rfl)⟩

/-- C10: when `DEVIN_API_KEY` is a non-empty whitespace-only string,
`load_token` returns the empty string without consulting the secret store,
and `get_api_key` therefore reports a missing credential and exits with
code 1 — even over a readable non-empty token file. -/
theorem C10_whitespace_env (w : String) (fs : SecretStore)
    (hw : w ≠ "") (hws : strip w = "") :
    Enhanced.load_token (some w) fs = (some "", []) ∧
    Enhanced.get_api_key (some w) fs = .exit 1 Enhanced.noTokenMsgs := by
  have hl : Enhanced.load_token (some w) fs = (some "", []) := by
    simp [Enhanced.load_token, hw, hws]
  refine ⟨hl, ?_⟩
  unfold Enhanced.get_api_key
  rw [hl]
  rfl

/-- C10 witness: a three-space environment value over a readable token file
holding a valid token. -/
theorem C10_witness :
    ("   " : String) ≠ "" ∧ strip "   " = "" ∧
    (Enhanced.load_token (some "   ") (some ⟨"validtoken123", 0o600, false⟩)
        = (some "", []) ∧
     Enhanced.get_api_key (some "   ") (some ⟨"validtoken123", 0o600, false⟩)
        = .exit 1 Enhanced.noTokenMsgs) :=
  ⟨by decide, by decide,
   C10_whitespace_env "   " (some ⟨"validtoken123", 0o600, false⟩) (by decide) (by decide)⟩
